import Mathlib

/-!
Verification development for the `anycubic_wifi` Home Assistant integration.

The development shallowly embeds the Python modules
`custom_components/anycubic_wifi/adapter_fascade.py` (extras parser and
response classifier), `custom_components/anycubic_wifi/data_bridge.py`
(polling bridge / debounce state machine) and the constants of
`custom_components/anycubic_wifi/const.py`.

Python attribute records and dictionaries are embedded as association
lists of string keys and dynamic values; Python in-place assignment to an
existing key keeps the key's position, which `dictSet` mirrors.  Fallible
Python code is embedded in `Except`, with the exception classes that the
source distinguishes (`ValueError`, `TypeError`, `AttributeError`).
Python floats are embedded as rationals; the numeric literals appearing in
this code base are small and exactly representable, so rational arithmetic
agrees with the source's float arithmetic on every input used here.
-/

/-- A Python runtime value as it occurs in the integration's records:
an `int`, a `float` (embedded as a rational), a `str`, or `None`. -/
inductive PyVal where
  | vInt (n : Int)
  | vFloat (q : ℚ)
  | vStr (s : String)
  | vNone
deriving DecidableEq, Repr

/-- The Python exception kinds distinguished by the embedded code:
`ValueError` (bad numeric text, failed unpacking), `TypeError`
(operation on `None`, iterating a non-iterable), `AttributeError`
(string method called on a non-string). -/
inductive PyErr where
  | valueError
  | typeError
  | attributeError
deriving DecidableEq, Repr

/-- Decidable equality of `Except` results, so that concrete runs of the
embedded fallible code can be checked by `decide`. -/
instance {ε α : Type} [DecidableEq ε] [DecidableEq α] : DecidableEq (Except ε α) := fun x y =>
  match x, y with
  | .ok a, .ok b =>
    match decEq a b with
    | isTrue h => isTrue (h ▸ rfl)
    | isFalse h => isFalse (fun hh => h (by cases hh; rfl))
  | .error a, .error b =>
    match decEq a b with
    | isTrue h => isTrue (h ▸ rfl)
    | isFalse h => isFalse (fun hh => h (by cases hh; rfl))
  | .ok _, .error _ => isFalse (fun hh => Except.noConfusion hh)
  | .error _, .ok _ => isFalse (fun hh => Except.noConfusion hh)

/-- A Python `dict` (or an object's `__dict__`) with string keys. -/
abbrev PyDict := List (String × PyVal)

/-- `d[k]` lookup / `getattr`: first binding of the key, if any. -/
def dictGet : PyDict → String → Option PyVal
  | [], _ => none
  | (k', v) :: rest, k => if k' = k then some v else dictGet rest k

/-- `d[k] = v` / attribute assignment: overwrite in place (Python dicts
keep the insertion position of an existing key), append if absent. -/
def dictSet : PyDict → String → PyVal → PyDict
  | [], k, v => [(k, v)]
  | (k', v') :: rest, k, v =>
    if k' = k then (k, v) :: rest else (k', v') :: dictSet rest k v

/-- Python `d.update(src)`: assign every binding of `src` into `d`,
in order. -/
def dictUpdate (d src : PyDict) : PyDict :=
  src.foldl (fun acc kv => dictSet acc kv.1 kv.2) d

/-- Python `hasattr` on an embedded record. -/
def hasAttr (r : PyDict) (k : String) : Bool :=
  (dictGet r k).isSome

/-- Strip leading and trailing whitespace, as Python `int()`/`float()`
do before parsing numeric text. -/
def trimChars (l : List Char) : List Char :=
  ((l.dropWhile Char.isWhitespace).reverse.dropWhile Char.isWhitespace).reverse

/-- Decimal value of a digit string. -/
def natOfDigits (l : List Char) : Nat :=
  l.foldl (fun acc c => acc * 10 + (c.toNat - 48)) 0

/-- Python `int(s)` on a string: optional sign followed by decimal
digits, surrounding whitespace ignored; anything else is a `ValueError`
(`none`). -/
def pyIntOfString (s : String) : Option Int :=
  let t := trimChars s.data
  let signCore : Bool × List Char :=
    match t with
    | '-' :: rest => (true, rest)
    | '+' :: rest => (false, rest)
    | l => (false, l)
  let neg := signCore.1
  let core := signCore.2
  if !core.isEmpty && core.all Char.isDigit then
    some (if neg then -(natOfDigits core : Int) else (natOfDigits core : Int))
  else none

/-- One step of Python `str.replace`/`str.split` scanning: does `pat`
start the list? -/
def listStarts (pat l : List Char) : Bool :=
  List.isPrefixOf pat l

/-- Python `str.replace(pat, rep)` scanning, by structural recursion on a
fuel argument so that the kernel can evaluate it: every step consumes at
least one character, so `fuel = l.length` never runs out and the
exhaustion branch is unreachable. -/
def replaceCharsAux (pat rep : List Char) : Nat → List Char → List Char
  | 0, l => l
  | _ + 1, [] => []
  | fuel + 1, c :: rest =>
    if listStarts pat (c :: rest) && !pat.isEmpty then
      rep ++ replaceCharsAux pat rep fuel (rest.drop (pat.length - 1))
    else
      c :: replaceCharsAux pat rep fuel rest

/-- Python `str.replace(pat, rep)` on character lists: replace every
non-overlapping occurrence, scanning left to right.  `pat` is nonempty in
every use in this code base. -/
def replaceChars (pat rep l : List Char) : List Char :=
  replaceCharsAux pat rep l.length l

/-- Python `str.split(sep)` scanning, with the same fuel discipline as
`replaceCharsAux`. -/
def splitCharsAux (sep : List Char) : Nat → List Char → List (List Char)
  | 0, l => [l]
  | _ + 1, [] => [[]]
  | fuel + 1, c :: rest =>
    if listStarts sep (c :: rest) && !sep.isEmpty then
      [] :: splitCharsAux sep fuel (rest.drop (sep.length - 1))
    else
      match splitCharsAux sep fuel rest with
      | [] => [[c]]
      | h :: t => (c :: h) :: t

/-- Python `str.split(sep)` on character lists, for nonempty `sep`:
split at every occurrence of `sep`; the result is never empty and an
input without `sep` yields a one-element list. -/
def splitChars (sep l : List Char) : List (List Char) :=
  splitCharsAux sep l.length l

/-- Python `s.replace(pat, rep)` on strings. -/
def pyReplace (s pat rep : String) : String :=
  String.mk (replaceChars pat.data rep.data s.data)

/-- Python `s.split(sep)` on strings (nonempty separator). -/
def pySplit (s sep : String) : List String :=
  (splitChars sep.data s.data).map String.mk

/-- Truncation toward zero, the behavior of Python `int()` on a float:
the numerator `tdiv` the (positive) denominator. -/
def ratTrunc (q : ℚ) : Int :=
  q.num.tdiv q.den

/-- Python `int(v)` on a dynamic value: identity on ints, truncation on
floats, strict decimal parsing on strings (`ValueError` otherwise),
`TypeError` on `None`. -/
def pyInt : PyVal → Except PyErr Int
  | .vInt n => .ok n
  | .vFloat q => .ok (ratTrunc q)
  | .vStr s =>
    match pyIntOfString s with
    | some n => .ok n
    | none => .error .valueError
  | .vNone => .error .typeError

/-- Python `float(s)` on a string: optional sign, then digits with an
optional single decimal point (at least one digit overall); exponent
forms are not used by this device protocol and are not modelled. -/
def pyFloatOfString (s : String) : Option ℚ :=
  let t := trimChars s.data
  let signCore : Bool × List Char :=
    match t with
    | '-' :: rest => (true, rest)
    | '+' :: rest => (false, rest)
    | l => (false, l)
  let neg := signCore.1
  let core := signCore.2
  let signed : Int → Int := fun n => if neg then -n else n
  match splitChars ['.'] core with
  | [ip] =>
    if !ip.isEmpty && ip.all Char.isDigit then
      some (Rat.divInt (signed (natOfDigits ip)) 1)
    else none
  | [ip, fp] =>
    if (!ip.isEmpty || !fp.isEmpty) && ip.all Char.isDigit && fp.all Char.isDigit then
      some (Rat.divInt (signed (natOfDigits ip * 10 ^ fp.length + natOfDigits fp))
        ((10 : Int) ^ fp.length))
    else none
  | _ => none

/-- Python `float(v)` on a dynamic value. -/
def pyFloat : PyVal → Except PyErr ℚ
  | .vInt n => .ok (Rat.divInt n 1)
  | .vFloat q => .ok q
  | .vStr s =>
    match pyFloatOfString s with
    | some q => .ok q
    | none => .error .valueError
  | .vNone => .error .typeError

/-- Two-digit zero-padded decimal rendering, as `strftime` produces. -/
def pad2 (n : Nat) : String :=
  if n < 10 then "0" ++ toString n else toString n

/-- `time.strftime("%H:%M:%S", time.gmtime(n))`: the time of day of the
epoch instant `n`, i.e. `n` reduced modulo 86400 rendered as
`HH:MM:SS` (values beyond one day wrap silently). -/
def hhmmssOfInt (n : Int) : String :=
  let t := (n.emod 86400).toNat
  pad2 (t / 3600) ++ ":" ++ pad2 (t % 3600 / 60) ++ ":" ++ pad2 (t % 60)

/-- `_seconds_to_hhmmss(raw_value)` from `adapter_fascade.py`:
`int(raw_value)` (which may raise) rendered through `gmtime`/`strftime`. -/
def seconds_to_hhmmss (v : PyVal) : Except PyErr String :=
  match pyInt v with
  | .ok n => .ok (hhmmssOfInt n)
  | .error e => .error e

/-! ### Constants from `const.py` -/

/-- `const.API_STATUS`. -/
def API_STATUS : String := "status"

/-- `const.API_SECONDS_ELAPSE`. -/
def API_SECONDS_ELAPSE : String := "seconds_elapse"

/-- `const.API_TILDE`. -/
def API_TILDE : String := "~"

/-- `const.API_VALUE_SPLIT_CHAR`. -/
def API_VALUE_SPLIT_CHAR : String := "/"

/-- `const.TYPE_STRING`. -/
def TYPE_STRING : String := "str"

/-- `const.TYPE_TIME`. -/
def TYPE_TIME : String := "time"

/-- `const.TYPE_INT`. -/
def TYPE_INT : String := "int"

/-- `const.TYPE_ML`. -/
def TYPE_ML : String := "mL"

/-- `const.TYPE_FLOAT`. -/
def TYPE_FLOAT : String := "float"

/-- `const.TYPE_FILE`. -/
def TYPE_FILE : String := "file"

/-- `const.INTERNAL_FILE`. -/
def INTERNAL_FILE : String := "Internal File Name"

/-- `const.ATTR_REMAINING_LAYERS`. -/
def ATTR_REMAINING_LAYERS : String := "Layers Remaining"

/-- `const.ATTR_TOTAL_TIME`. -/
def ATTR_TOTAL_TIME : String := "Total Print Time"

/-- `const.UNIT_HMS` (`TIME_HOURS + ":" + TIME_MINUTES + ":" + TIME_SECONDS`
with the Home Assistant unit strings `h`, `min`, `s`). -/
def UNIT_HMS : String := "h:min:s"

/-- `homeassistant.const.CONF_HOST`. -/
def CONF_HOST : String := "host"

/-- `const.ATTR_LOOKUP_TABLE`: rows of
(api sensor name, display name, data type, unit). -/
def ATTR_LOOKUP_TABLE : List (String × String × String × String) :=
  [ ("file", "file", TYPE_FILE, ""),
    ("current_layer", "Current Layer", TYPE_INT, ""),
    ("total_layers", "Total Layers", TYPE_INT, ""),
    ("layer_height", "Layer Height", TYPE_FLOAT, "mm"),
    ("percent_complete", "% Complete", TYPE_INT, "%"),
    ("seconds_elapse", "Time Elapsed", TYPE_TIME, UNIT_HMS),
    ("seconds_remaining", "Time Remaining", TYPE_TIME, UNIT_HMS),
    ("total_volume", "Print Volume", TYPE_ML, "mL"),
    ("mode", "Mode", TYPE_STRING, ""),
    ("unknown1", "unknown_1", TYPE_FLOAT, ""),
    ("unknown2", "unknown_2", TYPE_STRING, ""),
    (ATTR_REMAINING_LAYERS, ATTR_REMAINING_LAYERS, TYPE_TIME, ""),
    (ATTR_TOTAL_TIME, ATTR_TOTAL_TIME, TYPE_TIME, UNIT_HMS) ]

/-! ### The extras parser, `_parse_extras` of `adapter_fascade.py`

The raw status record is an object whose `__dict__` is embedded as a
`PyDict`; `hasattr`/`getattr` on it are `dictGet`.  `_parse_extras`
mutates the record in place when the unit-conversion branch fires, so the
embedding returns the (possibly rewritten) record next to the extras
dictionary. -/

/-- The `try`-protected body of one iteration of the lookup-table loop of
`_parse_extras`: the `match data_type` dispatch, acting on the extras
dictionary.  Raises `ValueError` on bad numeric text or a `split` that
does not produce exactly two parts, `AttributeError` when a string method
is called on a non-string value, `TypeError` when `int()`/`float()` meets
`None`. -/
def coerce_set (dt hass : String) (v : PyVal) (extras : PyDict) : Except PyErr PyDict :=
  if dt = TYPE_FILE then
    match v with
    | .vStr s =>
      match pySplit s API_VALUE_SPLIT_CHAR with
      | [ext, inside] =>
        .ok (dictSet (dictSet extras hass (.vStr ext)) INTERNAL_FILE (.vStr inside))
      | _ => .error .valueError
    | _ => .error .attributeError
  else if dt = TYPE_FLOAT then
    match pyFloat v with
    | .ok q => .ok (dictSet extras hass (.vFloat q))
    | .error e => .error e
  else if dt = TYPE_ML then
    match v with
    | .vStr s => .ok (dictSet extras hass (.vStr (pyReplace (pyReplace s TYPE_ML "") API_TILDE "")))
    | _ => .error .attributeError
  else if dt = TYPE_INT then
    match pyInt v with
    | .ok n => .ok (dictSet extras hass (.vInt n))
    | .error e => .error e
  else if dt = TYPE_TIME then
    match seconds_to_hhmmss v with
    | .ok s => .ok (dictSet extras hass (.vStr s))
    | .error e => .error e
  else
    .ok (dictSet extras hass v)

/-- One iteration of the lookup-table loop of `_parse_extras`: absent
fields yield an explicit `None` value; the coercion is wrapped in
`try ... except ValueError`, falling back to the raw value; other
exception kinds propagate. -/
def process_entry (r : PyDict) (extras : PyDict)
    (entry : String × String × String × String) : Except PyErr PyDict :=
  match dictGet r entry.1 with
  | none => .ok (dictSet extras entry.2.1 .vNone)
  | some v =>
    match coerce_set entry.2.2.1 entry.2.1 v extras with
    | .ok d => .ok d
    | .error .valueError => .ok (dictSet extras entry.2.1 v)
    | .error e => .error e

/-- The whole lookup-table loop of `_parse_extras`. -/
def process_entries (r : PyDict) :
    PyDict → List (String × String × String × String) → Except PyErr PyDict
  | extras, [] => .ok extras
  | extras, e :: rest =>
    match process_entry r extras e with
    | .ok d => process_entries r d rest
    | .error err => .error err

/-- The unit-conversion prelude of `_parse_extras`
(`adapter_fascade.py` lines 144-147): when `convert_seconds` is set and
the record has a `seconds_elapse` attribute, `int(raw.seconds_elapse)` is
divided by 60 (Python true division, yielding a float) and written back
into the record's `__dict__`; the `int()` call is unprotected and its
exceptions propagate. -/
def convert_step (r : PyDict) (convert_seconds : Bool) : Except PyErr PyDict :=
  if convert_seconds && hasAttr r API_SECONDS_ELAPSE then
    match dictGet r API_SECONDS_ELAPSE with
    | some v =>
      match pyInt v with
      | .ok n => .ok (dictSet r API_SECONDS_ELAPSE (.vFloat (Rat.divInt n 60)))
      | .error e => .error e
    | none => .ok r
  else .ok r

/-- The computed Remaining Layers block of `_parse_extras`
(lines 185-192): `int(total) - int(current)` when both attributes are
present, else an explicit `None`; the `int()` calls are unprotected. -/
def computed_layers (r : PyDict) (extras : PyDict) : Except PyErr PyDict :=
  match dictGet r "current_layer", dictGet r "total_layers" with
  | some cv, some tv =>
    match pyInt tv with
    | .error e => .error e
    | .ok total =>
      match pyInt cv with
      | .error e => .error e
      | .ok current => .ok (dictSet extras ATTR_REMAINING_LAYERS (.vInt (total - current)))
  | _, _ => .ok (dictSet extras ATTR_REMAINING_LAYERS .vNone)

/-- The computed Total Print Time block of `_parse_extras`
(lines 194-203): `_seconds_to_hhmmss(elapsed + remain)` when both time
attributes are present, else an explicit `None`; the `int()` calls are
unprotected. -/
def computed_total_time (r : PyDict) (extras : PyDict) : Except PyErr PyDict :=
  match dictGet r API_SECONDS_ELAPSE, dictGet r "seconds_remaining" with
  | some ev, some rv =>
    match pyInt rv with
    | .error e => .error e
    | .ok remain =>
      match pyInt ev with
      | .error e => .error e
      | .ok elapsed =>
        .ok (dictSet extras ATTR_TOTAL_TIME (.vStr (hhmmssOfInt (elapsed + remain))))
  | _, _ => .ok (dictSet extras ATTR_TOTAL_TIME .vNone)

/-- `_parse_extras(raw_extras, convert_seconds)` of `adapter_fascade.py`:
returns the record as left behind by the call (the function mutates it in
place in the conversion branch) together with the extras dictionary.  A
record without a `status` attribute yields an empty dictionary at once. -/
def parse_extras (r : PyDict) (convert_seconds : Bool) : Except PyErr (PyDict × PyDict) :=
  match dictGet r API_STATUS with
  | none => .ok (r, [])
  | some _ =>
    match convert_step r convert_seconds with
    | .error e => .error e
    | .ok r' =>
      match process_entries r' [] ATTR_LOOKUP_TABLE with
      | .error e => .error e
      | .ok d1 =>
        match computed_layers r' d1 with
        | .error e => .error e
        | .ok d2 =>
          match computed_total_time r' d2 with
          | .error e => .error e
          | .ok d3 => .ok (r', d3)

/-! ### The response classifier, `_find_response_of_type` of `adapter_fascade.py` -/

/-- The runtime kind of a decoded `uart_wifi` response object:
`MonoXStatus`, `MonoXSysInfo`, or some other `MonoXResponseType`
(broadcast noise from another listener). -/
inductive RespKind where
  | status
  | sysinfo
  | other
deriving DecidableEq, Repr

/-- A decoded response object: its runtime class together with its
attribute record. -/
structure RespObj where
  kind : RespKind
  payload : PyDict
deriving DecidableEq, Repr

/-- The argument shape of `_find_response_of_type`: the transport yields
either a single decoded object or a list of decoded objects.

Modelled from the spec: the decoded response objects themselves come from
the external `uart_wifi` package (not part of this repository); per the
spec they are plain decoded records, so a single object is not iterable
and a `for` loop over it raises `TypeError`. -/
inductive RespInput where
  | single (o : RespObj)
  | many (objs : List RespObj)
deriving DecidableEq, Repr

/-- `_find_response_of_type(response, expected_type)`: return the input
itself when `isinstance` matches at top level; otherwise iterate it and
return the first element of the expected kind; `False` (embedded as
`none`) when nothing matches.  Iterating a single non-matching,
non-iterable object raises `TypeError`. -/
def find_response_of_type : RespInput → RespKind → Except PyErr (Option RespObj)
  | .single o, k => if o.kind = k then .ok (some o) else .error .typeError
  | .many l, k => .ok (l.find? (fun o => decide (o.kind = k)))

/-! ### The polling bridge, `AnycubicDataBridge` of `data_bridge.py`

`_reported_status_extras: dict = {}` and `_connection_retries: int = 0`
are declared at class level.  The integer counter is rebound per instance
by `+=`/`=` assignments, but the dict is only ever mutated in place via
`.update(...)` and never rebound, so the one class-level dict object is
shared by every bridge instance.  `BridgeState` carries the counter and
that shared dict; `run_shared_polls` below threads the shared dict across
polls of possibly distinct instances. -/

/-- Per-instance configuration of a bridge: the
`OPT_NO_EXTRA_DATA` option of its config entry and the adapter's
`ip_address`. -/
structure InstanceCfg where
  no_extras : Bool
  host : String
deriving DecidableEq, Repr

/-- The mutable bridge state touched by a poll cycle:
`_connection_retries` and `_reported_status_extras`. -/
structure BridgeState where
  connection_retries : Nat
  reported_status_extras : PyDict
deriving DecidableEq, Repr

/-- The observable outcome of `self._monox.get_current_status(...)`
inside `_async_update_data`: a truthy status object with its extras
dictionary, the `(False, False)` not-found reply, or one of the three
caught transport exceptions (`AnycubicException`, `ConnectionException`,
`ConnectionRefusedError`). -/
inductive PollOutcome where
  | success (status : PyDict) (extras : PyDict)
  | notFound
  | fault
deriving DecidableEq, Repr

/-- `homeassistant...UpdateFailed`, the only error the bridge raises to
the host scheduler. -/
inductive BridgeError where
  | updateFailed
deriving DecidableEq, Repr

/-- Is the outcome one of the two failure shapes that reach
`debounce_failure_response`? -/
def failure_outcome : PollOutcome → Bool
  | .success _ _ => false
  | .notFound => true
  | .fault => true

/-- `const.STATUS_OFFLINE = MonoXStatus(["getstatus", "offline"])`.

Modelled from the spec: the `MonoXStatus` constructor lives in the
external `uart_wifi` package; per the spec this constant is the synthetic
offline record, a status record whose `status` field reads `offline`. -/
def STATUS_OFFLINE : PyDict := [(API_STATUS, .vStr "offline")]

/-- `AnycubicDataBridge.debounce_failure_response`: increment
`_connection_retries`; above 5 raise `UpdateFailed`, otherwise report the
offline record.  The increment happens before the raise, so the new
counter value is returned in either case. -/
def debounce_failure_response (retries : Nat) : Nat × Except BridgeError PyDict :=
  let retries := retries + 1
  if retries > 5 then (retries, .error .updateFailed)
  else (retries, .ok STATUS_OFFLINE)

/-- `AnycubicDataBridge._maybe_record_status_extras`: merge the parsed
extras into the shared dict unless extras are disabled. -/
def maybe_record_status_extras (cfg : InstanceCfg) (shared extras : PyDict) : PyDict :=
  if cfg.no_extras then shared else dictUpdate shared extras

/-- `AnycubicDataBridge._maybe_add_host_to_extras`: the source guards on
`hasattr(self._reported_status_extras, CONF_HOST)`, which probes an
attribute of the dict object rather than a key and is therefore always
false, so the merge is gated only by the extras option. -/
def maybe_add_host_to_extras (cfg : InstanceCfg) (shared : PyDict) : PyDict :=
  if cfg.no_extras then shared
  else dictUpdate shared [(CONF_HOST, .vStr cfg.host)]

/-- `AnycubicDataBridge._async_update_data`, given the observable outcome
of the adapter call: on a truthy status the retry counter resets to 0,
the extras dict is (optionally) merged and the fresh status object is
returned; on a falsy status or a caught transport exception the outcome
is delegated to `debounce_failure_response`. -/
def async_update_data (cfg : InstanceCfg) (s : BridgeState) (p : PollOutcome) :
    BridgeState × Except BridgeError PyDict :=
  match p with
  | .success st ex =>
    let shared :=
      maybe_add_host_to_extras cfg (maybe_record_status_extras cfg s.reported_status_extras ex)
    (⟨0, shared⟩, .ok st)
  | .notFound =>
    let res := debounce_failure_response s.connection_retries
    (⟨res.1, s.reported_status_extras⟩, res.2)
  | .fault =>
    let res := debounce_failure_response s.connection_retries
    (⟨res.1, s.reported_status_extras⟩, res.2)

/-- `AnycubicDataBridge.is_online`: `self._connection_retries < 6`. -/
def is_online (s : BridgeState) : Bool :=
  decide (s.connection_retries < 6)

/-- `AnycubicDataBridge.assumed_state`: `self._connection_retries == 0`. -/
def assumed_state (s : BridgeState) : Bool :=
  decide (s.connection_retries = 0)

/-- `AnycubicDataBridge.get_last_status_extras`: the shared extras dict. -/
def get_last_status_extras (s : BridgeState) : PyDict :=
  s.reported_status_extras

/-- A sequence of poll cycles of one bridge instance.  A raised
`UpdateFailed` is caught by the host coordinator, which keeps polling;
the counter increment preceding the raise is retained. -/
def run_polls (cfg : InstanceCfg) (s : BridgeState) : List PollOutcome → BridgeState
  | [] => s
  | p :: ps => run_polls cfg (async_update_data cfg s p).1 ps

/-- A sequence of poll cycles across possibly distinct bridge instances:
each poll carries the acting instance's configuration and its own current
retry counter, while the class-level extras dict is shared by all of
them. -/
def run_shared_polls (shared : PyDict) : List (InstanceCfg × Nat × PollOutcome) → PyDict
  | [] => shared
  | (cfg, rt, p) :: ps =>
    run_shared_polls ((async_update_data cfg ⟨rt, shared⟩ p).1).reported_status_extras ps

/-! ### Derived notions used to state properties of the parser -/

/-- The effect of one dictionary assignment on the key list: an existing
key keeps its position, a new key is appended. -/
def addKey (ks : List String) (k : String) : List String :=
  if k ∈ ks then ks else ks ++ [k]

/-- Does the record's field `name` hold a string that
`split(API_VALUE_SPLIT_CHAR)` cuts into exactly two parts (the only case
in which the FILE coercion succeeds and emits the second, internal-file
key)? -/
def file_field_two_part (r : PyDict) (name : String) : Bool :=
  match dictGet r name with
  | some (.vStr s) => (pySplit s API_VALUE_SPLIT_CHAR).length == 2
  | _ => false

/-- The output keys contributed by one lookup-table row: the display key
always; additionally `INTERNAL_FILE` when the row is the FILE row and the
field value splits into exactly two parts. -/
def entry_added_keys (r : PyDict) (e : String × String × String × String) : List String :=
  if e.2.2.1 == TYPE_FILE && file_field_two_part r e.1 then [e.2.1, INTERNAL_FILE]
  else [e.2.1]

/-- The output key list of a successful `_parse_extras` run, with or
without the internal-file key. -/
def expected_keys (withInternal : Bool) : List String :=
  ["file"] ++ (if withInternal then [INTERNAL_FILE] else []) ++
  ["Current Layer", "Total Layers", "Layer Height", "% Complete", "Time Elapsed",
   "Time Remaining", "Print Volume", "Mode", "unknown_1", "unknown_2",
   ATTR_REMAINING_LAYERS, ATTR_TOTAL_TIME]

/-! ## Helper lemmas about the dictionary embedding -/

theorem dictGet_dictSet_self (d : PyDict) (k : String) (v : PyVal) :
    dictGet (dictSet d k v) k = some v := by
  induction d with
  | nil => simp [dictSet, dictGet]
  | cons kv rest ih =>
    obtain ⟨k', v'⟩ := kv
    by_cases h : k' = k
    · subst h; simp [dictSet, dictGet]
    · simp [dictSet, dictGet, h, ih]

theorem dictGet_dictSet_ne (d : PyDict) (k k' : String) (v : PyVal) (h : k' ≠ k) :
    dictGet (dictSet d k v) k' = dictGet d k' := by
  induction d with
  | nil =>
    simp only [dictSet, dictGet]
    rw [if_neg (Ne.symm h)]
  | cons kv rest ih =>
    obtain ⟨a, b⟩ := kv
    by_cases ha : a = k
    · subst ha
      simp only [dictSet, if_pos rfl, dictGet]
      rw [if_neg (Ne.symm h), if_neg (Ne.symm h)]
    · simp only [dictSet, if_neg ha, dictGet]
      by_cases hak : a = k'
      · rw [if_pos hak, if_pos hak]
      · rw [if_neg hak, if_neg hak, ih]

theorem mapfst_dictSet (d : PyDict) (k : String) (v : PyVal) :
    (dictSet d k v).map Prod.fst = addKey (d.map Prod.fst) k := by
  induction d with
  | nil => simp [dictSet, addKey]
  | cons kv rest ih =>
    obtain ⟨k', v'⟩ := kv
    by_cases h : k' = k
    · subst h; simp [dictSet, addKey]
    · simp only [dictSet, if_neg h, List.map_cons, ih, addKey]
      by_cases hm : k ∈ rest.map Prod.fst
      · simp [hm, h, List.mem_cons, Ne.symm h]
      · simp [hm, h, List.mem_cons, Ne.symm h]

theorem mem_addKey (ks : List String) (k a : String) (h : a ∈ ks) : a ∈ addKey ks k := by
  unfold addKey
  split <;> simp [h]

theorem mem_mapfst_dictUpdate (d src : PyDict) (k : String) (h : k ∈ d.map Prod.fst) :
    k ∈ (dictUpdate d src).map Prod.fst := by
  induction src generalizing d with
  | nil => simpa [dictUpdate] using h
  | cons kv rest ih =>
    have hstep : dictUpdate d (kv :: rest) = dictUpdate (dictSet d kv.1 kv.2) rest := by
      simp [dictUpdate]
    rw [hstep]
    exact ih _ (by rw [mapfst_dictSet]; exact mem_addKey _ _ _ h)

/-- Splitting a successful `parse_extras` run into its four stages. -/
theorem parse_extras_ok_elim {r r' ex : PyDict} {b : Bool}
    (hst : dictGet r API_STATUS ≠ none)
    (h : parse_extras r b = .ok (r', ex)) :
    convert_step r b = .ok r' ∧
    ∃ d1 d2, process_entries r' [] ATTR_LOOKUP_TABLE = .ok d1 ∧
      computed_layers r' d1 = .ok d2 ∧ computed_total_time r' d2 = .ok ex := by
  unfold parse_extras at h
  cases hs : dictGet r API_STATUS with
  | none => exact absurd hs hst
  | some sv =>
    rw [hs] at h
    dsimp only at h
    cases hc : convert_step r b with
    | error e => rw [hc] at h; cases h
    | ok r0 =>
      rw [hc] at h
      dsimp only at h
      cases h1 : process_entries r0 [] ATTR_LOOKUP_TABLE with
      | error e => rw [h1] at h; cases h
      | ok d1 =>
        rw [h1] at h
        dsimp only at h
        cases h2 : computed_layers r0 d1 with
        | error e => rw [h2] at h; cases h
        | ok d2 =>
          rw [h2] at h
          dsimp only at h
          cases h3 : computed_total_time r0 d2 with
          | error e => rw [h3] at h; cases h
          | ok d3 =>
            rw [h3] at h
            dsimp only at h
            injection h with hh
            injection hh with h4 h5
            refine ⟨?_, d1, d2, ?_, ?_, ?_⟩
            · rw [h4]
            · rw [← h4]; exact h1
            · rw [← h4]; exact h2
            · rw [← h4, ← h5]; exact h3

/-! ## C1: debounce behavior of the polling bridge -/

/-- **C1** (amended): each of the first 5 consecutive poll failures
increments the consecutive-failure counter and does not raise, but what
it returns is always the synthetic offline record `STATUS_OFFLINE` —
never the previously served data; the 6th consecutive failure (counter
already at 5) raises `UpdateFailed`; and any successful poll resets the
counter to 0 and returns the fresh status. -/
theorem C1_debounce_amended (cfg : InstanceCfg) (s : BridgeState) (p : PollOutcome) :
    (failure_outcome p = true → s.connection_retries < 5 →
      async_update_data cfg s p =
        (⟨s.connection_retries + 1, s.reported_status_extras⟩, .ok STATUS_OFFLINE)) ∧
    (failure_outcome p = true → 5 ≤ s.connection_retries →
      async_update_data cfg s p =
        (⟨s.connection_retries + 1, s.reported_status_extras⟩, .error .updateFailed)) ∧
    (∀ st ex, (async_update_data cfg s (.success st ex)).1.connection_retries = 0 ∧
      (async_update_data cfg s (.success st ex)).2 = .ok st) := by
  refine ⟨?_, ?_, ?_⟩
  · intro hp hlt
    cases p with
    | success st ex => simp [failure_outcome] at hp
    | notFound =>
      simp only [async_update_data, debounce_failure_response]
      rw [if_neg (by omega)]
    | fault =>
      simp only [async_update_data, debounce_failure_response]
      rw [if_neg (by omega)]
  · intro hp hge
    cases p with
    | success st ex => simp [failure_outcome] at hp
    | notFound =>
      simp only [async_update_data, debounce_failure_response]
      rw [if_pos (by omega)]
    | fault =>
      simp only [async_update_data, debounce_failure_response]
      rw [if_pos (by omega)]
  · intro st ex
    exact ⟨rfl, rfl⟩

/-- **C1** witness: at concrete states, a failure below the threshold
returns the offline record with the counter bumped, a failure at counter
5 (the 6th in a row) raises, and a success resets the counter. -/
theorem C1_debounce_amended_witness :
    async_update_data ⟨true, "1.2.3.4"⟩ ⟨0, []⟩ .fault = (⟨1, []⟩, .ok STATUS_OFFLINE) ∧
    async_update_data ⟨true, "1.2.3.4"⟩ ⟨5, []⟩ .fault = (⟨6, []⟩, .error .updateFailed) ∧
    (async_update_data ⟨true, "1.2.3.4"⟩ ⟨3, []⟩
        (.success [(API_STATUS, .vStr "print")] [])).1.connection_retries = 0 :=
  ⟨(C1_debounce_amended ⟨true, "1.2.3.4"⟩ ⟨0, []⟩ .fault).1 (by decide) (by decide),
   (C1_debounce_amended ⟨true, "1.2.3.4"⟩ ⟨5, []⟩ .fault).2.1 (by decide) (by decide),
   ((C1_debounce_amended ⟨true, "1.2.3.4"⟩ ⟨3, []⟩ .fault).2.2
      [(API_STATUS, .vStr "print")] []).1⟩

/-- **C1** counterexample: after a successful poll served the record
`{status: "print"}`, the very next failure (data had been received, so
per the claim the previously served data should be returned unchanged)
instead returns the synthetic offline record, which differs from the
previously served data. -/
theorem C1_debounce_counterexample :
    (async_update_data ⟨true, "1.2.3.4"⟩
        (async_update_data ⟨true, "1.2.3.4"⟩ ⟨0, []⟩
          (.success [(API_STATUS, .vStr "print")] [])).1
        .fault).2 = .ok STATUS_OFFLINE ∧
    STATUS_OFFLINE ≠ [(API_STATUS, .vStr "print")] := by
  constructor
  · decide
  · decide

/-! ## C2: the `is_online` accessor -/

/-- **C2** (amended): `is_online` returns `true` exactly when the
consecutive-failure counter is below 6 (i.e. the hard-offline threshold
has not been exceeded), not when it is 0; "true iff the counter is 0" is
instead the behavior of the separate `assumed_state` property. -/
theorem C2_is_online_amended (s : BridgeState) :
    (is_online s = true ↔ s.connection_retries < 6) ∧
    (assumed_state s = true ↔ s.connection_retries = 0) := by
  constructor <;> simp [is_online, assumed_state]

/-- **C2** counterexample: after three consecutive failed polls the
counter is 3 — not 0 — yet `is_online` still returns `true`, refuting
"`is_online()` returns true if and only if the counter equals 0". -/
theorem C2_is_online_counterexample :
    (run_polls ⟨true, "1.2.3.4"⟩ ⟨0, []⟩ [.fault, .fault, .fault]).connection_retries = 3 ∧
    is_online (run_polls ⟨true, "1.2.3.4"⟩ ⟨0, []⟩ [.fault, .fault, .fault]) = true := by
  constructor
  · decide
  · decide

/-! ## C5: the response classifier -/

/-- `List.find?` returns the first match of a split list. -/
theorem find_first_of_append {α : Type} (p : α → Bool) (pre post : List α) (m : α)
    (hpre : ∀ a ∈ pre, p a = false) (hm : p m = true) :
    List.find? p (pre ++ m :: post) = some m := by
  induction pre with
  | nil => simp [List.find?, hm]
  | cons a rest ih =>
    have ha : p a = false := hpre a (by simp)
    simp only [List.cons_append, List.find?, ha]
    exact ih (fun x hx => hpre x (by simp [hx]))

/-- `List.find?` finds nothing when nothing matches. -/
theorem find_none_of_all_false {α : Type} (p : α → Bool) (l : List α)
    (h : ∀ a ∈ l, p a = false) :
    List.find? p l = none := by
  induction l with
  | nil => rfl
  | cons a rest ih =>
    have ha : p a = false := h a (by simp)
    simp only [List.find?, ha]
    exact ih (fun x hx => h x (by simp [hx]))

/-- **C5** (amended): when the top-level input matches the expected kind
it is returned directly; a sequence input never raises and yields the
first element of the expected kind in input order, or the `False`
sentinel (`none`) when no element matches; but — contrary to the claim —
a single decoded object that does not match is iterated by the `for`
loop and, being non-iterable, raises `TypeError` instead of returning the
sentinel. -/
theorem C5_classifier_amended :
    (∀ (o : RespObj) (k : RespKind), o.kind = k →
      find_response_of_type (.single o) k = .ok (some o)) ∧
    (∀ (o : RespObj) (k : RespKind), o.kind ≠ k →
      find_response_of_type (.single o) k = .error .typeError) ∧
    (∀ (pre post : List RespObj) (m : RespObj) (k : RespKind),
      (∀ a ∈ pre, a.kind ≠ k) → m.kind = k →
      find_response_of_type (.many (pre ++ m :: post)) k = .ok (some m)) ∧
    (∀ (l : List RespObj) (k : RespKind), (∀ a ∈ l, a.kind ≠ k) →
      find_response_of_type (.many l) k = .ok none) := by
  refine ⟨?_, ?_, ?_, ?_⟩
  · intro o k h
    simp [find_response_of_type, h]
  · intro o k h
    simp [find_response_of_type, h]
  · intro pre post m k hpre hm
    simp only [find_response_of_type]
    rw [find_first_of_append _ _ _ _ (fun a ha => by simp [hpre a ha]) (by simp [hm])]
  · intro l k h
    simp only [find_response_of_type]
    rw [find_none_of_all_false _ _ (fun a ha => by simp [h a ha])]

/-- **C5** witness: the spec's scenario — a batch holding one unrelated
record followed by one matching record — yields the matching one without
raising; a fully unrelated batch yields the sentinel. -/
theorem C5_classifier_amended_witness :
    find_response_of_type (.many [⟨.other, []⟩, ⟨.status, []⟩]) .status =
      .ok (some ⟨.status, []⟩) ∧
    find_response_of_type (.many [⟨.other, []⟩]) .status = .ok none ∧
    find_response_of_type (.single ⟨.status, []⟩) .status = .ok (some ⟨.status, []⟩) :=
  ⟨(C5_classifier_amended.2.2.1 [⟨.other, []⟩] [] ⟨.status, []⟩ .status
      (by decide) (by decide) : _),
   (C5_classifier_amended.2.2.2 [⟨.other, []⟩] .status (by decide) : _),
   (C5_classifier_amended.1 ⟨.status, []⟩ .status (by decide) : _)⟩

/-- **C5** counterexample: a single decoded object of the wrong kind
(e.g. a sysinfo record when a status record is expected) makes
`_find_response_of_type` raise `TypeError` — the claim's "never raises
for any such input" fails. -/
theorem C5_classifier_counterexample :
    find_response_of_type (.single ⟨.sysinfo, []⟩) .status = .error .typeError := by
  decide

/-! ## C10: the class-level shared extras dictionary only grows -/

theorem run_shared_polls_append (sh : PyDict)
    (pre suf : List (InstanceCfg × Nat × PollOutcome)) :
    run_shared_polls sh (pre ++ suf) = run_shared_polls (run_shared_polls sh pre) suf := by
  induction pre generalizing sh with
  | nil => rfl
  | cons x rest ih =>
    obtain ⟨cfg, rt, p⟩ := x
    simp only [List.cons_append, run_shared_polls]
    exact ih _

theorem mem_keys_async_update (cfg : InstanceCfg) (rt : Nat) (sh : PyDict)
    (p : PollOutcome) (k : String) (h : k ∈ sh.map Prod.fst) :
    k ∈ ((async_update_data cfg ⟨rt, sh⟩ p).1.reported_status_extras).map Prod.fst := by
  cases p with
  | success st ex =>
    simp only [async_update_data, maybe_add_host_to_extras, maybe_record_status_extras]
    by_cases hne : cfg.no_extras
    · simpa [hne] using h
    · simp only [hne, if_neg, ite_false]
      exact mem_mapfst_dictUpdate _ _ _ (mem_mapfst_dictUpdate _ _ _ h)
  | notFound => exact h
  | fault => exact h

theorem mem_keys_run_shared (sh : PyDict) (ps : List (InstanceCfg × Nat × PollOutcome))
    (k : String) (h : k ∈ sh.map Prod.fst) :
    k ∈ (run_shared_polls sh ps).map Prod.fst := by
  induction ps generalizing sh with
  | nil => exact h
  | cons x rest ih =>
    obtain ⟨cfg, rt, p⟩ := x
    simp only [run_shared_polls]
    exact ih _ (mem_keys_async_update cfg rt sh p k h)

/-- **C10**: the extras mapping `_reported_status_extras` is a
class-level dict shared by all bridge instances and only ever merged into
via `dict.update`, never cleared or replaced; hence any key present in
`get_last_status_extras` after some prefix of polls (for instance, a key
stored by an earlier successful poll) is still present after any further
polls — across any mix of bridge instances and outcomes — even when the
later polls' parse outputs omit that key. -/
theorem C10_shared_extras_monotone (sh : PyDict)
    (pre suf : List (InstanceCfg × Nat × PollOutcome)) (k : String) (n m : Nat)
    (h : k ∈ (get_last_status_extras ⟨n, run_shared_polls sh pre⟩).map Prod.fst) :
    k ∈ (get_last_status_extras ⟨m, run_shared_polls sh (pre ++ suf)⟩).map Prod.fst := by
  rw [run_shared_polls_append]
  exact mem_keys_run_shared _ suf k h

/-- **C10** witness: a key `"a"` merged by one instance's successful poll
is still present after a later poll of a different instance whose parse
output lacks that key. -/
theorem C10_shared_extras_monotone_witness :
    "a" ∈ (get_last_status_extras ⟨0,
        run_shared_polls []
          [(⟨false, "1.2.3.4"⟩, 0, .success [(API_STATUS, .vStr "print")] [("a", .vStr "1")])]⟩).map
        Prod.fst ∧
    "a" ∈ (get_last_status_extras ⟨0,
        run_shared_polls []
          ([(⟨false, "1.2.3.4"⟩, 0, .success [(API_STATUS, .vStr "print")] [("a", .vStr "1")])] ++
           [(⟨false, "5.6.7.8"⟩, 2, .success [(API_STATUS, .vStr "stop")] [])])⟩).map
        Prod.fst :=
  ⟨by decide,
   C10_shared_extras_monotone []
     [(⟨false, "1.2.3.4"⟩, 0, .success [(API_STATUS, .vStr "print")] [("a", .vStr "1")])]
     [(⟨false, "5.6.7.8"⟩, 2, .success [(API_STATUS, .vStr "stop")] [])]
     "a" 0 0 (by decide)⟩

/-! ## C7: purity / idempotence of the extras parser -/

/-- **C7** (amended): `_parse_extras` is pure and idempotent only when
the conversion flag is clear or the record has no `seconds_elapse` field:
then the record is returned unchanged and a second call yields the
identical result.  (With the flag set and `seconds_elapse` present the
function mutates the record — see the counterexample.) -/
theorem C7_parse_pure_amended (r r' ex : PyDict) (b : Bool)
    (hb : b = false ∨ dictGet r API_SECONDS_ELAPSE = none)
    (h : parse_extras r b = .ok (r', ex)) :
    r' = r ∧ parse_extras r' b = .ok (r', ex) := by
  have hconv : convert_step r b = .ok r := by
    unfold convert_step
    rcases hb with hb | hb
    · rw [hb]; simp
    · simp [hasAttr, hb]
  by_cases hst : dictGet r API_STATUS = none
  · unfold parse_extras at h
    rw [hst] at h
    dsimp only at h
    injection h with hh
    injection hh with h4 h5
    subst h4; subst h5
    refine ⟨rfl, ?_⟩
    unfold parse_extras
    rw [hst]
  · have helim := parse_extras_ok_elim hst h
    have hr : r' = r := by
      have h1 := helim.1
      rw [hconv] at h1
      injection h1 with hh
      exact hh.symm
    subst hr
    exact ⟨rfl, h⟩

/-- **C7** witness: on a record without `seconds_elapse` the parse
returns the record unchanged and a repeated call gives the identical
output mapping. -/
theorem C7_parse_pure_amended_witness :
    parse_extras [(API_STATUS, .vStr "print")] false =
      .ok ([(API_STATUS, .vStr "print")],
        [("file", .vNone), ("Current Layer", .vNone), ("Total Layers", .vNone),
         ("Layer Height", .vNone), ("% Complete", .vNone), ("Time Elapsed", .vNone),
         ("Time Remaining", .vNone), ("Print Volume", .vNone), ("Mode", .vNone),
         ("unknown_1", .vNone), ("unknown_2", .vNone), ("Layers Remaining", .vNone),
         ("Total Print Time", .vNone)]) ∧
    ([(API_STATUS, .vStr "print")] : PyDict) = [(API_STATUS, .vStr "print")] ∧
    parse_extras [(API_STATUS, .vStr "print")] false =
      .ok ([(API_STATUS, .vStr "print")],
        [("file", .vNone), ("Current Layer", .vNone), ("Total Layers", .vNone),
         ("Layer Height", .vNone), ("% Complete", .vNone), ("Time Elapsed", .vNone),
         ("Time Remaining", .vNone), ("Print Volume", .vNone), ("Mode", .vNone),
         ("unknown_1", .vNone), ("unknown_2", .vNone), ("Layers Remaining", .vNone),
         ("Total Print Time", .vNone)]) := by
  have hp : parse_extras [(API_STATUS, .vStr "print")] false =
      .ok ([(API_STATUS, .vStr "print")],
        [("file", .vNone), ("Current Layer", .vNone), ("Total Layers", .vNone),
         ("Layer Height", .vNone), ("% Complete", .vNone), ("Time Elapsed", .vNone),
         ("Time Remaining", .vNone), ("Print Volume", .vNone), ("Mode", .vNone),
         ("unknown_1", .vNone), ("unknown_2", .vNone), ("Layers Remaining", .vNone),
         ("Total Print Time", .vNone)]) := by decide
  have happ := C7_parse_pure_amended [(API_STATUS, .vStr "print")]
    [(API_STATUS, .vStr "print")]
    [("file", .vNone), ("Current Layer", .vNone), ("Total Layers", .vNone),
     ("Layer Height", .vNone), ("% Complete", .vNone), ("Time Elapsed", .vNone),
     ("Time Remaining", .vNone), ("Print Volume", .vNone), ("Mode", .vNone),
     ("unknown_1", .vNone), ("unknown_2", .vNone), ("Layers Remaining", .vNone),
     ("Total Print Time", .vNone)] false (Or.inl rfl) hp
  exact ⟨hp, happ.1, happ.2⟩

/-- **C7** counterexample: with the conversion flag set,
`_parse_extras` rewrites the record's `seconds_elapse` in place
(`120` becomes the float `2.0`), and a second call on the same record
object divides again and yields a different output mapping — the parser
is neither pure nor idempotent. -/
theorem C7_parse_pure_counterexample :
    parse_extras [(API_STATUS, .vStr "print"), (API_SECONDS_ELAPSE, .vStr "120")] true =
      .ok ([(API_STATUS, .vStr "print"), (API_SECONDS_ELAPSE, .vFloat 2)],
        [("file", .vNone), ("Current Layer", .vNone), ("Total Layers", .vNone),
         ("Layer Height", .vNone), ("% Complete", .vNone),
         ("Time Elapsed", .vStr "00:00:02"), ("Time Remaining", .vNone),
         ("Print Volume", .vNone), ("Mode", .vNone), ("unknown_1", .vNone),
         ("unknown_2", .vNone), ("Layers Remaining", .vNone),
         ("Total Print Time", .vNone)]) ∧
    ([(API_STATUS, .vStr "print"), (API_SECONDS_ELAPSE, .vFloat 2)] : PyDict) ≠
      [(API_STATUS, .vStr "print"), (API_SECONDS_ELAPSE, .vStr "120")] ∧
    parse_extras [(API_STATUS, .vStr "print"), (API_SECONDS_ELAPSE, .vFloat 2)] true =
      .ok ([(API_STATUS, .vStr "print"), (API_SECONDS_ELAPSE, .vFloat (Rat.divInt 1 30))],
        [("file", .vNone), ("Current Layer", .vNone), ("Total Layers", .vNone),
         ("Layer Height", .vNone), ("% Complete", .vNone),
         ("Time Elapsed", .vStr "00:00:00"), ("Time Remaining", .vNone),
         ("Print Volume", .vNone), ("Mode", .vNone), ("unknown_1", .vNone),
         ("unknown_2", .vNone), ("Layers Remaining", .vNone),
         ("Total Print Time", .vNone)]) ∧
    ([("file", PyVal.vNone), ("Current Layer", .vNone), ("Total Layers", .vNone),
      ("Layer Height", .vNone), ("% Complete", .vNone),
      ("Time Elapsed", .vStr "00:00:00"), ("Time Remaining", .vNone),
      ("Print Volume", .vNone), ("Mode", .vNone), ("unknown_1", .vNone),
      ("unknown_2", .vNone), ("Layers Remaining", .vNone),
      ("Total Print Time", .vNone)] : PyDict) ≠
      [("file", .vNone), ("Current Layer", .vNone), ("Total Layers", .vNone),
       ("Layer Height", .vNone), ("% Complete", .vNone),
       ("Time Elapsed", .vStr "00:00:02"), ("Time Remaining", .vNone),
       ("Print Volume", .vNone), ("Mode", .vNone), ("unknown_1", .vNone),
       ("unknown_2", .vNone), ("Layers Remaining", .vNone),
       ("Total Print Time", .vNone)] := by
  refine ⟨by decide, by decide, by decide, by decide⟩

/-! ## C3: the unit-conversion branch -/

/-- **C3** (amended): when the convert-to-seconds flag is set, the extras
parser rescales the `seconds_elapse` field — not `seconds_remaining`:
`int(raw.seconds_elapse)` is divided by 60 (Python true division,
yielding a float stored back into the record) before further processing,
while `seconds_remaining` is left exactly as it was. -/
theorem C3_convert_amended (r r' ex : PyDict) (v : PyVal)
    (hst : dictGet r API_STATUS ≠ none)
    (hv : dictGet r API_SECONDS_ELAPSE = some v)
    (h : parse_extras r true = .ok (r', ex)) :
    ∃ n : Int, pyInt v = .ok n ∧
      dictGet r' API_SECONDS_ELAPSE = some (.vFloat (Rat.divInt n 60)) ∧
      dictGet r' "seconds_remaining" = dictGet r "seconds_remaining" := by
  have hconv := (parse_extras_ok_elim hst h).1
  unfold convert_step at hconv
  rw [hv] at hconv
  simp only [hasAttr, hv, Option.isSome_some, Bool.and_self, if_true] at hconv
  cases hpy : pyInt v with
  | error e => rw [hpy] at hconv; cases hconv
  | ok n =>
    rw [hpy] at hconv
    dsimp only at hconv
    injection hconv with hh
    refine ⟨n, rfl, ?_, ?_⟩
    · rw [← hh]
      exact dictGet_dictSet_self _ _ _
    · rw [← hh]
      exact dictGet_dictSet_ne _ _ _ _ (by decide)

/-- **C3** witness: on a record with `seconds_elapse = "600"` and
`seconds_remaining = "120"` and the flag set, `int("600")` is 600 and the
record comes back with `seconds_elapse` rewritten to the float
`600 / 60 = 10.0` while `seconds_remaining` is untouched. -/
theorem C3_convert_amended_witness :
    ∃ n : Int, pyInt (.vStr "600") = .ok n ∧
      dictGet [(API_STATUS, .vStr "print"), (API_SECONDS_ELAPSE, .vFloat 10),
        ("seconds_remaining", .vStr "120")] API_SECONDS_ELAPSE =
        some (.vFloat (Rat.divInt n 60)) ∧
      dictGet [(API_STATUS, .vStr "print"), (API_SECONDS_ELAPSE, .vFloat 10),
        ("seconds_remaining", .vStr "120")] "seconds_remaining" =
        dictGet [(API_STATUS, .vStr "print"), (API_SECONDS_ELAPSE, .vStr "600"),
          ("seconds_remaining", .vStr "120")] "seconds_remaining" :=
  C3_convert_amended
    [(API_STATUS, .vStr "print"), (API_SECONDS_ELAPSE, .vStr "600"),
     ("seconds_remaining", .vStr "120")]
    [(API_STATUS, .vStr "print"), (API_SECONDS_ELAPSE, .vFloat 10),
     ("seconds_remaining", .vStr "120")]
    [("file", .vNone), ("Current Layer", .vNone), ("Total Layers", .vNone),
     ("Layer Height", .vNone), ("% Complete", .vNone),
     ("Time Elapsed", .vStr "00:00:10"), ("Time Remaining", .vStr "00:02:00"),
     ("Print Volume", .vNone), ("Mode", .vNone), ("unknown_1", .vNone),
     ("unknown_2", .vNone), ("Layers Remaining", .vNone),
     ("Total Print Time", .vStr "00:02:10")]
    (.vStr "600") (by decide) (by decide) (by decide)

/-- **C3** counterexample: with the flag set and both time fields
present, the parse leaves `seconds_remaining` exactly as it was (its
rendered value `00:02:00` corresponds to 120 unrescaled) and instead
rewrites `seconds_elapse` to `600 / 60 = 10.0` — the opposite of the
claim, which says `seconds_remaining` is divided by 60 and
`seconds_elapse` is not rescaled. -/
theorem C3_convert_counterexample :
    parse_extras [(API_STATUS, .vStr "print"), (API_SECONDS_ELAPSE, .vStr "600"),
        ("seconds_remaining", .vStr "120")] true =
      .ok ([(API_STATUS, .vStr "print"), (API_SECONDS_ELAPSE, .vFloat 10),
            ("seconds_remaining", .vStr "120")],
        [("file", .vNone), ("Current Layer", .vNone), ("Total Layers", .vNone),
         ("Layer Height", .vNone), ("% Complete", .vNone),
         ("Time Elapsed", .vStr "00:00:10"), ("Time Remaining", .vStr "00:02:00"),
         ("Print Volume", .vNone), ("Mode", .vNone), ("unknown_1", .vNone),
         ("unknown_2", .vNone), ("Layers Remaining", .vNone),
         ("Total Print Time", .vStr "00:02:10")]) ∧
    (PyVal.vStr "120" : PyVal) ≠ .vFloat (Rat.divInt 120 60) ∧
    (PyVal.vFloat 10 : PyVal) ≠ .vStr "600" := by
  refine ⟨by decide, by decide, by decide⟩

/-! ## C4: the computed total-print-time field -/

/-- **C4**: in every successful parse of a record carrying a `status`
field, the Total Print Time output is the `HH:MM:SS` rendering (with the
silent 24-hour wrap of `gmtime`) of the integer sum `elapsed + remaining`
of the two time fields of the record as processed by the parse (the
record is unchanged when the conversion flag is clear), whenever both
fields are present and coerce to integers; when either field is absent
the output value for that key is the explicit `None`. -/
theorem C4_total_time (r r' ex : PyDict) (b : Bool)
    (hst : dictGet r API_STATUS ≠ none)
    (h : parse_extras r b = .ok (r', ex)) :
    (∀ (ve vr : PyVal) (e rem : Int),
      dictGet r' API_SECONDS_ELAPSE = some ve →
      dictGet r' "seconds_remaining" = some vr →
      pyInt vr = .ok rem → pyInt ve = .ok e →
      dictGet ex ATTR_TOTAL_TIME = some (.vStr (hhmmssOfInt (e + rem)))) ∧
    ((dictGet r' API_SECONDS_ELAPSE = none ∨ dictGet r' "seconds_remaining" = none) →
      dictGet ex ATTR_TOTAL_TIME = some .vNone) := by
  obtain ⟨-, d1, d2, -, -, h3⟩ := parse_extras_ok_elim hst h
  constructor
  · intro ve vr e rem hve hvr hrem he
    unfold computed_total_time at h3
    rw [hve, hvr] at h3
    dsimp only at h3
    rw [hrem] at h3
    dsimp only at h3
    rw [he] at h3
    dsimp only at h3
    injection h3 with hh
    rw [← hh]
    exact dictGet_dictSet_self _ _ _
  · intro habs
    unfold computed_total_time at h3
    rcases habs with ha | ha
    · rw [ha] at h3
      dsimp only at h3
      injection h3 with hh
      rw [← hh]
      exact dictGet_dictSet_self _ _ _
    · rw [ha] at h3
      cases hev : dictGet r' API_SECONDS_ELAPSE with
      | none =>
        rw [hev] at h3
        dsimp only at h3
        injection h3 with hh
        rw [← hh]
        exact dictGet_dictSet_self _ _ _
      | some ev =>
        rw [hev] at h3
        dsimp only at h3
        injection h3 with hh
        rw [← hh]
        exact dictGet_dictSet_self _ _ _

/-- **C4** witness: `seconds_elapse = "3600"`, `seconds_remaining = "61"`
yield Total Print Time `hhmmss(3661) = "01:01:01"`; and when
`seconds_remaining` is absent the field is the explicit `None`. -/
theorem C4_total_time_witness :
    dictGet [("file", .vNone), ("Current Layer", .vNone), ("Total Layers", .vNone),
      ("Layer Height", .vNone), ("% Complete", .vNone),
      ("Time Elapsed", .vStr "01:00:00"), ("Time Remaining", .vStr "00:01:01"),
      ("Print Volume", .vNone), ("Mode", .vNone), ("unknown_1", .vNone),
      ("unknown_2", .vNone), ("Layers Remaining", .vNone),
      ("Total Print Time", .vStr "01:01:01")] ATTR_TOTAL_TIME =
      some (.vStr (hhmmssOfInt (3600 + 61))) ∧
    hhmmssOfInt (3600 + 61) = "01:01:01" :=
  ⟨(C4_total_time
      [(API_STATUS, .vStr "print"), (API_SECONDS_ELAPSE, .vStr "3600"),
       ("seconds_remaining", .vStr "61")]
      [(API_STATUS, .vStr "print"), (API_SECONDS_ELAPSE, .vStr "3600"),
       ("seconds_remaining", .vStr "61")]
      [("file", .vNone), ("Current Layer", .vNone), ("Total Layers", .vNone),
       ("Layer Height", .vNone), ("% Complete", .vNone),
       ("Time Elapsed", .vStr "01:00:00"), ("Time Remaining", .vStr "00:01:01"),
       ("Print Volume", .vNone), ("Mode", .vNone), ("unknown_1", .vNone),
       ("unknown_2", .vNone), ("Layers Remaining", .vNone),
       ("Total Print Time", .vStr "01:01:01")]
      false (by decide) (by decide)).1
    (.vStr "3600") (.vStr "61") 3600 61 (by decide) (by decide) (by decide) (by decide),
   by decide⟩

/-! ## C9: the volume coercion -/

/-- **C9**: evaluating the parser at `total_volume = "1234~mL"`: the
`mL` and `~` markers are stripped, but the annotated `int(...)` coercion
is missing from the TYPE_ML branch (`int_value: int = raw_value.replace(...)`
never calls `int`), so the Print Volume output is the *string* `"1234"`,
not the integer `1234` required by the claim and by the branch's own type
annotation. -/
theorem C9_volume_code_bug :
    parse_extras [(API_STATUS, .vStr "print"), ("total_volume", .vStr "1234~mL")] false =
      .ok ([(API_STATUS, .vStr "print"), ("total_volume", .vStr "1234~mL")],
        [("file", .vNone), ("Current Layer", .vNone), ("Total Layers", .vNone),
         ("Layer Height", .vNone), ("% Complete", .vNone), ("Time Elapsed", .vNone),
         ("Time Remaining", .vNone), ("Print Volume", .vStr "1234"), ("Mode", .vNone),
         ("unknown_1", .vNone), ("unknown_2", .vNone), ("Layers Remaining", .vNone),
         ("Total Print Time", .vNone)]) ∧
    (PyVal.vStr "1234" : PyVal) ≠ .vInt 1234 := by
  refine ⟨by decide, by decide⟩

/-! ## C8: per-field error recovery -/

theorem process_entry_never_valueError (r d : PyDict)
    (e : String × String × String × String) :
    process_entry r d e ≠ .error .valueError := by
  intro hh
  unfold process_entry at hh
  cases hg : dictGet r e.1 with
  | none => rw [hg] at hh; dsimp only at hh; cases hh
  | some v =>
    rw [hg] at hh
    dsimp only at hh
    cases hc : coerce_set e.2.2.1 e.2.1 v d with
    | ok d' => rw [hc] at hh; dsimp only at hh; cases hh
    | error err =>
      rw [hc] at hh
      cases err with
      | valueError => dsimp only at hh; cases hh
      | typeError => dsimp only at hh; injection hh with hh'; cases hh'
      | attributeError => dsimp only at hh; injection hh with hh'; cases hh'

/-- **C8** (amended): inside the lookup-table loop a `ValueError` from a
field coercion (malformed numeric text, an unexpected delimiter) is
recovered per-field — the raw value is emitted for that key and the loop
continues, so the loop as a whole never surfaces a `ValueError`.  But the
claim's inclusion of the computed fields fails: the `int()` coercions of
the computed remaining-layers and total-print-time blocks (and of the
unit-conversion prelude) are outside the `try`, so a malformed value
there aborts the whole parse (see the counterexample). -/
theorem C8_fallback_amended :
    (∀ (r d : PyDict) (entries : List (String × String × String × String)),
      process_entries r d entries ≠ .error .valueError) ∧
    (∀ (r d : PyDict) (name hass dt u : String) (v : PyVal),
      (name, hass, dt, u) ∈ ATTR_LOOKUP_TABLE →
      dictGet r name = some v →
      coerce_set dt hass v d = .error .valueError →
      process_entry r d (name, hass, dt, u) = .ok (dictSet d hass v)) := by
  constructor
  · intro r d entries
    induction entries generalizing d with
    | nil => intro hh; cases hh
    | cons e rest ih =>
      intro hh
      unfold process_entries at hh
      cases hpe : process_entry r d e with
      | ok d1 =>
        rw [hpe] at hh
        dsimp only at hh
        exact ih d1 hh
      | error err =>
        rw [hpe] at hh
        dsimp only at hh
        injection hh with hh'
        subst hh'
        exact process_entry_never_valueError r d e hpe
  · intro r d name hass dt u v hmem hget hco
    unfold process_entry
    dsimp only
    rw [hget]
    dsimp only
    rw [hco]

/-- **C8** witness: a malformed `layer_height` (`"x.y"`) makes the FLOAT
coercion raise `ValueError`; the loop recovers by emitting the raw string
for that key, and table processing of the whole record still does not
abort with a `ValueError`. -/
theorem C8_fallback_amended_witness :
    coerce_set TYPE_FLOAT "Layer Height" (.vStr "x.y") [] = .error .valueError ∧
    process_entry [(API_STATUS, .vStr "print"), ("layer_height", .vStr "x.y")] []
      ("layer_height", "Layer Height", TYPE_FLOAT, "mm") =
      .ok [("Layer Height", .vStr "x.y")] ∧
    process_entries [(API_STATUS, .vStr "print"), ("layer_height", .vStr "x.y")] []
      ATTR_LOOKUP_TABLE ≠ .error .valueError :=
  ⟨by decide,
   C8_fallback_amended.2 [(API_STATUS, .vStr "print"), ("layer_height", .vStr "x.y")] []
     "layer_height" "Layer Height" TYPE_FLOAT "mm" (.vStr "x.y")
     (by decide) (by decide) (by decide),
   C8_fallback_amended.1 [(API_STATUS, .vStr "print"), ("layer_height", .vStr "x.y")] []
     ATTR_LOOKUP_TABLE⟩

/-- **C8** counterexample: a single malformed field (`current_layer =
"abc"`) aborts the *entire* parse with a `ValueError` — the computed
remaining-layers block's `int()` is not protected — contradicting "a
single malformed field never aborts parsing of the remaining fields,
including the computed remaining-layers and total-print-time fields". -/
theorem C8_fallback_counterexample :
    parse_extras [(API_STATUS, .vStr "print"), ("current_layer", .vStr "abc"),
        ("total_layers", .vStr "5")] false = .error .valueError := by
  decide

/-! ## C6: constancy of the output key set -/

theorem entry_added_keys_nonfile (r : PyDict) (name hass dt u : String)
    (h : (dt == TYPE_FILE) = false) :
    entry_added_keys r (name, hass, dt, u) = [hass] := by
  unfold entry_added_keys
  dsimp only
  rw [h]
  rfl

theorem coerce_set_single_key (dt hass : String) (v : PyVal) (d d' : PyDict)
    (hdt : dt ≠ TYPE_FILE) (h : coerce_set dt hass v d = .ok d') :
    ∃ w, d' = dictSet d hass w := by
  unfold coerce_set at h
  rw [if_neg hdt] at h
  by_cases h1 : dt = TYPE_FLOAT
  · rw [if_pos h1] at h
    cases hq : pyFloat v with
    | ok q => rw [hq] at h; dsimp only at h; injection h with hh; exact ⟨_, hh.symm⟩
    | error e => rw [hq] at h; dsimp only at h; cases h
  · rw [if_neg h1] at h
    by_cases h2 : dt = TYPE_ML
    · rw [if_pos h2] at h
      cases v with
      | vStr s => dsimp only at h; injection h with hh; exact ⟨_, hh.symm⟩
      | vInt n => dsimp only at h; cases h
      | vFloat q => dsimp only at h; cases h
      | vNone => dsimp only at h; cases h
    · rw [if_neg h2] at h
      by_cases h3 : dt = TYPE_INT
      · rw [if_pos h3] at h
        cases hn : pyInt v with
        | ok n => rw [hn] at h; dsimp only at h; injection h with hh; exact ⟨_, hh.symm⟩
        | error e => rw [hn] at h; dsimp only at h; cases h
      · rw [if_neg h3] at h
        by_cases h4 : dt = TYPE_TIME
        · rw [if_pos h4] at h
          cases hn : seconds_to_hhmmss v with
          | ok s => rw [hn] at h; dsimp only at h; injection h with hh; exact ⟨_, hh.symm⟩
          | error e => rw [hn] at h; dsimp only at h; cases h
        · rw [if_neg h4] at h
          injection h with hh; exact ⟨_, hh.symm⟩

theorem process_entry_keys (r d d' : PyDict) (e : String × String × String × String)
    (h : process_entry r d e = .ok d') :
    d'.map Prod.fst = (entry_added_keys r e).foldl addKey (d.map Prod.fst) := by
  obtain ⟨name, hass, dt, u⟩ := e
  unfold process_entry at h
  dsimp only at h
  cases hg : dictGet r name with
  | none =>
    rw [hg] at h
    dsimp only at h
    injection h with hh
    rw [← hh, mapfst_dictSet]
    unfold entry_added_keys file_field_two_part
    dsimp only
    rw [hg]
    simp [List.foldl]
  | some v =>
    rw [hg] at h
    dsimp only at h
    by_cases hdt : dt = TYPE_FILE
    · subst hdt
      cases v with
      | vStr s =>
        have hcu : coerce_set TYPE_FILE hass (.vStr s) d =
            (match pySplit s API_VALUE_SPLIT_CHAR with
              | [ext, inside] =>
                .ok (dictSet (dictSet d hass (.vStr ext)) INTERNAL_FILE (.vStr inside))
              | _ => .error .valueError) := by
          unfold coerce_set
          rw [if_pos rfl]
        rw [hcu] at h
        have hff : file_field_two_part r name =
            ((pySplit s API_VALUE_SPLIT_CHAR).length == 2) := by
          unfold file_field_two_part
          rw [hg]
        cases hsp : pySplit s API_VALUE_SPLIT_CHAR with
        | nil =>
          rw [hsp] at h
          dsimp only at h
          injection h with hh
          rw [← hh, mapfst_dictSet]
          unfold entry_added_keys
          dsimp only
          rw [hff, hsp]
          simp [List.foldl]
        | cons a t =>
          cases t with
          | nil =>
            rw [hsp] at h
            dsimp only at h
            injection h with hh
            rw [← hh, mapfst_dictSet]
            unfold entry_added_keys
            dsimp only
            rw [hff, hsp]
            simp [List.foldl]
          | cons a2 t2 =>
            cases t2 with
            | nil =>
              rw [hsp] at h
              dsimp only at h
              injection h with hh
              rw [← hh, mapfst_dictSet, mapfst_dictSet]
              unfold entry_added_keys
              dsimp only
              rw [hff, hsp]
              simp [List.foldl]
            | cons a3 t3 =>
              rw [hsp] at h
              dsimp only at h
              injection h with hh
              rw [← hh, mapfst_dictSet]
              unfold entry_added_keys
              dsimp only
              rw [hff, hsp]
              simp [List.foldl]
      | vInt n =>
        have hcu : coerce_set TYPE_FILE hass (.vInt n) d = .error .attributeError := by
          unfold coerce_set; rw [if_pos rfl]
        rw [hcu] at h
        dsimp only at h
        cases h
      | vFloat q =>
        have hcu : coerce_set TYPE_FILE hass (.vFloat q) d = .error .attributeError := by
          unfold coerce_set; rw [if_pos rfl]
        rw [hcu] at h
        dsimp only at h
        cases h
      | vNone =>
        have hcu : coerce_set TYPE_FILE hass .vNone d = .error .attributeError := by
          unfold coerce_set; rw [if_pos rfl]
        rw [hcu] at h
        dsimp only at h
        cases h
    · have hbeq : (dt == TYPE_FILE) = false := by
        simpa using hdt
      cases hc : coerce_set dt hass v d with
      | ok dd =>
        rw [hc] at h
        dsimp only at h
        injection h with hh
        obtain ⟨w, hw⟩ := coerce_set_single_key dt hass v d dd hdt hc
        rw [← hh, hw, mapfst_dictSet, entry_added_keys_nonfile r name hass dt u hbeq]
        simp [List.foldl]
      | error err =>
        cases err with
        | valueError =>
          rw [hc] at h
          dsimp only at h
          injection h with hh
          rw [← hh, mapfst_dictSet, entry_added_keys_nonfile r name hass dt u hbeq]
          simp [List.foldl]
        | typeError =>
          rw [hc] at h
          dsimp only at h
          cases h
        | attributeError =>
          rw [hc] at h
          dsimp only at h
          cases h

theorem process_entries_keys (r : PyDict)
    (entries : List (String × String × String × String)) (d d' : PyDict)
    (h : process_entries r d entries = .ok d') :
    d'.map Prod.fst =
      entries.foldl (fun ks e => (entry_added_keys r e).foldl addKey ks)
        (d.map Prod.fst) := by
  induction entries generalizing d with
  | nil =>
    unfold process_entries at h
    injection h with hh
    rw [← hh]
    rfl
  | cons e rest ih =>
    unfold process_entries at h
    cases hpe : process_entry r d e with
    | error err => rw [hpe] at h; cases h
    | ok d1 =>
      rw [hpe] at h
      dsimp only at h
      rw [ih d1 h, List.foldl_cons, process_entry_keys r d d1 e hpe]

theorem computed_layers_keys (r d d' : PyDict) (h : computed_layers r d = .ok d') :
    d'.map Prod.fst = addKey (d.map Prod.fst) ATTR_REMAINING_LAYERS := by
  unfold computed_layers at h
  cases hg1 : dictGet r "current_layer" with
  | none =>
    rw [hg1] at h
    dsimp only at h
    injection h with hh
    rw [← hh, mapfst_dictSet]
  | some cv =>
    rw [hg1] at h
    cases hg2 : dictGet r "total_layers" with
    | none =>
      rw [hg2] at h
      dsimp only at h
      injection h with hh
      rw [← hh, mapfst_dictSet]
    | some tv =>
      rw [hg2] at h
      dsimp only at h
      cases hn1 : pyInt tv with
      | error e => rw [hn1] at h; dsimp only at h; cases h
      | ok total =>
        rw [hn1] at h
        dsimp only at h
        cases hn2 : pyInt cv with
        | error e => rw [hn2] at h; dsimp only at h; cases h
        | ok current =>
          rw [hn2] at h
          dsimp only at h
          injection h with hh
          rw [← hh, mapfst_dictSet]

theorem computed_total_time_keys (r d d' : PyDict)
    (h : computed_total_time r d = .ok d') :
    d'.map Prod.fst = addKey (d.map Prod.fst) ATTR_TOTAL_TIME := by
  unfold computed_total_time at h
  cases hg1 : dictGet r API_SECONDS_ELAPSE with
  | none =>
    rw [hg1] at h
    dsimp only at h
    injection h with hh
    rw [← hh, mapfst_dictSet]
  | some ev =>
    rw [hg1] at h
    cases hg2 : dictGet r "seconds_remaining" with
    | none =>
      rw [hg2] at h
      dsimp only at h
      injection h with hh
      rw [← hh, mapfst_dictSet]
    | some rv =>
      rw [hg2] at h
      dsimp only at h
      cases hn1 : pyInt rv with
      | error e => rw [hn1] at h; dsimp only at h; cases h
      | ok remain =>
        rw [hn1] at h
        dsimp only at h
        cases hn2 : pyInt ev with
        | error e => rw [hn2] at h; dsimp only at h; cases h
        | ok elapsed =>
          rw [hn2] at h
          dsimp only at h
          injection h with hh
          rw [← hh, mapfst_dictSet]

theorem convert_step_preserves_file (r r' : PyDict) (b : Bool)
    (h : convert_step r b = .ok r') :
    file_field_two_part r' "file" = file_field_two_part r "file" := by
  unfold convert_step at h
  by_cases hb : (b && hasAttr r API_SECONDS_ELAPSE) = true
  · rw [if_pos hb] at h
    cases hg : dictGet r API_SECONDS_ELAPSE with
    | none =>
      rw [hg] at h
      dsimp only at h
      injection h with hh
      rw [hh]
    | some v =>
      rw [hg] at h
      dsimp only at h
      cases hn : pyInt v with
      | error e => rw [hn] at h; dsimp only at h; cases h
      | ok n =>
        rw [hn] at h
        dsimp only at h
        injection h with hh
        rw [← hh]
        unfold file_field_two_part
        rw [dictGet_dictSet_ne _ _ _ _ (by decide)]
  · rw [if_neg hb] at h
    injection h with hh
    rw [hh]

/-- **C6** (amended): for every successful parse of a record carrying a
`status` field, the output key list is completely determined except for
the `INTERNAL_FILE` key: it is `expected_keys true` when the `file` field
is present with a well-formed two-part value and `expected_keys false`
(the same keys *without* `INTERNAL_FILE`) otherwise — so the key set is
not constant across records: the second key of the FILE-kind split is
emitted only when the `file` field is present and well-formed, while all
other absent fields do keep their key with an explicit `None` value. -/
theorem C6_key_set_amended (r r' ex : PyDict) (b : Bool)
    (hst : dictGet r API_STATUS ≠ none)
    (h : parse_extras r b = .ok (r', ex)) :
    ex.map Prod.fst = expected_keys (file_field_two_part r "file") := by
  obtain ⟨hconv, d1, d2, h1, h2, h3⟩ := parse_extras_ok_elim hst h
  have hfile := convert_step_preserves_file r r' b hconv
  rw [computed_total_time_keys r' d2 ex h3, computed_layers_keys r' d1 d2 h2,
      process_entries_keys r' ATTR_LOOKUP_TABLE [] d1 h1, ← hfile]
  have hbeqf : (TYPE_FILE == TYPE_FILE) = true := by decide
  have e2 : entry_added_keys r' ("current_layer", "Current Layer", TYPE_INT, "") = ["Current Layer"] :=
    entry_added_keys_nonfile r' "current_layer" "Current Layer" TYPE_INT "" (by decide)
  have e3 : entry_added_keys r' ("total_layers", "Total Layers", TYPE_INT, "") = ["Total Layers"] :=
    entry_added_keys_nonfile r' "total_layers" "Total Layers" TYPE_INT "" (by decide)
  have e4 : entry_added_keys r' ("layer_height", "Layer Height", TYPE_FLOAT, "mm") = ["Layer Height"] :=
    entry_added_keys_nonfile r' "layer_height" "Layer Height" TYPE_FLOAT "mm" (by decide)
  have e5 : entry_added_keys r' ("percent_complete", "% Complete", TYPE_INT, "%") = ["% Complete"] :=
    entry_added_keys_nonfile r' "percent_complete" "% Complete" TYPE_INT "%" (by decide)
  have e6 : entry_added_keys r' ("seconds_elapse", "Time Elapsed", TYPE_TIME, UNIT_HMS) = ["Time Elapsed"] :=
    entry_added_keys_nonfile r' "seconds_elapse" "Time Elapsed" TYPE_TIME UNIT_HMS (by decide)
  have e7 : entry_added_keys r' ("seconds_remaining", "Time Remaining", TYPE_TIME, UNIT_HMS) = ["Time Remaining"] :=
    entry_added_keys_nonfile r' "seconds_remaining" "Time Remaining" TYPE_TIME UNIT_HMS (by decide)
  have e8 : entry_added_keys r' ("total_volume", "Print Volume", TYPE_ML, "mL") = ["Print Volume"] :=
    entry_added_keys_nonfile r' "total_volume" "Print Volume" TYPE_ML "mL" (by decide)
  have e9 : entry_added_keys r' ("mode", "Mode", TYPE_STRING, "") = ["Mode"] :=
    entry_added_keys_nonfile r' "mode" "Mode" TYPE_STRING "" (by decide)
  have e10 : entry_added_keys r' ("unknown1", "unknown_1", TYPE_FLOAT, "") = ["unknown_1"] :=
    entry_added_keys_nonfile r' "unknown1" "unknown_1" TYPE_FLOAT "" (by decide)
  have e11 : entry_added_keys r' ("unknown2", "unknown_2", TYPE_STRING, "") = ["unknown_2"] :=
    entry_added_keys_nonfile r' "unknown2" "unknown_2" TYPE_STRING "" (by decide)
  have e12 : entry_added_keys r' (ATTR_REMAINING_LAYERS, ATTR_REMAINING_LAYERS, TYPE_TIME, "") = [ATTR_REMAINING_LAYERS] :=
    entry_added_keys_nonfile r' ATTR_REMAINING_LAYERS ATTR_REMAINING_LAYERS TYPE_TIME "" (by decide)
  have e13 : entry_added_keys r' (ATTR_TOTAL_TIME, ATTR_TOTAL_TIME, TYPE_TIME, UNIT_HMS) = [ATTR_TOTAL_TIME] :=
    entry_added_keys_nonfile r' ATTR_TOTAL_TIME ATTR_TOTAL_TIME TYPE_TIME UNIT_HMS (by decide)
  cases hff : file_field_two_part r' "file" with
  | false =>
    have e1 : entry_added_keys r' ("file", "file", TYPE_FILE, "") = ["file"] := by
      unfold entry_added_keys
      dsimp only
      rw [hbeqf, hff]
      rfl
    simp only [ATTR_LOOKUP_TABLE, List.foldl_cons, List.foldl_nil]
    rw [e1, e2, e3, e4, e5, e6, e7, e8, e9, e10, e11, e12, e13]
    decide
  | true =>
    have e1 : entry_added_keys r' ("file", "file", TYPE_FILE, "") =
        ["file", INTERNAL_FILE] := by
      unfold entry_added_keys
      dsimp only
      rw [hbeqf, hff]
      rfl
    simp only [ATTR_LOOKUP_TABLE, List.foldl_cons, List.foldl_nil]
    rw [e1, e2, e3, e4, e5, e6, e7, e8, e9, e10, e11, e12, e13]
    decide

/-- **C6** witness: a record with a well-formed `file` field parses to
the full key list including `INTERNAL_FILE`. -/
theorem C6_key_set_amended_witness :
    ([("file", PyVal.vStr "a.pwmb"), ("Internal File Name", .vStr "b.pwmb"),
      ("Current Layer", .vNone), ("Total Layers", .vNone), ("Layer Height", .vNone),
      ("% Complete", .vNone), ("Time Elapsed", .vNone), ("Time Remaining", .vNone),
      ("Print Volume", .vNone), ("Mode", .vNone), ("unknown_1", .vNone),
      ("unknown_2", .vNone), ("Layers Remaining", .vNone),
      ("Total Print Time", .vNone)] : PyDict).map Prod.fst =
      expected_keys (file_field_two_part
        [("status", .vStr "print"), ("file", .vStr "a.pwmb/b.pwmb")] "file") :=
  C6_key_set_amended
    [("status", .vStr "print"), ("file", .vStr "a.pwmb/b.pwmb")]
    [("status", .vStr "print"), ("file", .vStr "a.pwmb/b.pwmb")]
    [("file", .vStr "a.pwmb"), ("Internal File Name", .vStr "b.pwmb"),
     ("Current Layer", .vNone), ("Total Layers", .vNone), ("Layer Height", .vNone),
     ("% Complete", .vNone), ("Time Elapsed", .vNone), ("Time Remaining", .vNone),
     ("Print Volume", .vNone), ("Mode", .vNone), ("unknown_1", .vNone),
     ("unknown_2", .vNone), ("Layers Remaining", .vNone), ("Total Print Time", .vNone)]
    false (by decide) (by decide)

/-- **C6** counterexample: two records both carrying `status` — one with
a well-formed `file` field, one without `file` — parse successfully to
outputs with *different* key sets: the `INTERNAL_FILE` key of the
FILE-kind split is present in the first output and absent from the
second, refuting "exactly the same set of output keys ... in particular
for both keys produced by the FILE-kind split". -/
theorem C6_key_set_counterexample :
    parse_extras [("status", .vStr "print"), ("file", .vStr "a.pwmb/b.pwmb")] false =
      .ok ([("status", .vStr "print"), ("file", .vStr "a.pwmb/b.pwmb")],
        [("file", .vStr "a.pwmb"), ("Internal File Name", .vStr "b.pwmb"),
         ("Current Layer", .vNone), ("Total Layers", .vNone), ("Layer Height", .vNone),
         ("% Complete", .vNone), ("Time Elapsed", .vNone), ("Time Remaining", .vNone),
         ("Print Volume", .vNone), ("Mode", .vNone), ("unknown_1", .vNone),
         ("unknown_2", .vNone), ("Layers Remaining", .vNone),
         ("Total Print Time", .vNone)]) ∧
    parse_extras [("status", .vStr "print")] false =
      .ok ([("status", .vStr "print")],
        [("file", .vNone), ("Current Layer", .vNone), ("Total Layers", .vNone),
         ("Layer Height", .vNone), ("% Complete", .vNone), ("Time Elapsed", .vNone),
         ("Time Remaining", .vNone), ("Print Volume", .vNone), ("Mode", .vNone),
         ("unknown_1", .vNone), ("unknown_2", .vNone), ("Layers Remaining", .vNone),
         ("Total Print Time", .vNone)]) ∧
    "Internal File Name" ∈
      ([("file", PyVal.vStr "a.pwmb"), ("Internal File Name", .vStr "b.pwmb"),
        ("Current Layer", .vNone), ("Total Layers", .vNone), ("Layer Height", .vNone),
        ("% Complete", .vNone), ("Time Elapsed", .vNone), ("Time Remaining", .vNone),
        ("Print Volume", .vNone), ("Mode", .vNone), ("unknown_1", .vNone),
        ("unknown_2", .vNone), ("Layers Remaining", .vNone),
        ("Total Print Time", .vNone)] : PyDict).map Prod.fst ∧
    "Internal File Name" ∉
      ([("file", PyVal.vNone), ("Current Layer", .vNone), ("Total Layers", .vNone),
        ("Layer Height", .vNone), ("% Complete", .vNone), ("Time Elapsed", .vNone),
        ("Time Remaining", .vNone), ("Print Volume", .vNone), ("Mode", .vNone),
        ("unknown_1", .vNone), ("unknown_2", .vNone), ("Layers Remaining", .vNone),
        ("Total Print Time", .vNone)] : PyDict).map Prod.fst := by
  refine ⟨by decide, by decide, by decide, by decide⟩
